import Mathlib

/-!
Verification of the apollo-io-mcp tool adapter (src/index.ts).

The development shallowly embeds the request/response mapping layer of the
adapter: JSON values, the zod input schemas with their defaults, the
truthiness-guarded renaming of validated fields into remote request
parameters, the per-tool summarization and text rendering, and the
try/catch error classification of the tool-call handler.

JavaScript numbers are modelled as rationals (every numeric literal the
claims mention is representable; NaN and the infinities do not occur in the
modelled inputs). JavaScript `undefined` is modelled as an absent optional
value (`Option.none` / a missing object entry); `null` is the explicit
`Json.null`. Summary objects drop entries whose value is `undefined`,
matching what `JSON.stringify` does to such fields.
-/

/-- A JSON value. Object entries keep insertion order, as JavaScript
object literals do; property access reads the first matching key. -/
inductive Json where
  | null : Json
  | bool : Bool → Json
  | num : Rat → Json
  | str : String → Json
  | arr : List Json → Json
  | obj : List (String × Json) → Json
deriving Repr

/-- Property access `o.k`: a value for object entries, `undefined` (`none`)
for a missing key or a non-object receiver (matching `?.` chains where the
receiver can only be an object or absent). -/
def Json.getField : Json → String → Option Json
  | .obj kvs, k => kvs.lookup k
  | _, _ => none

/-- JavaScript truthiness of a JSON value: `null`, `false`, `0` and `""`
are falsy; every array and object is truthy. -/
def truthy : Json → Bool
  | .null => false
  | .bool b => b
  | .num q => q != 0
  | .str s => s != ""
  | .arr _ => true
  | .obj _ => true

/-- Truthiness of a possibly-`undefined` value (`undefined` is falsy). -/
def truthyOpt : Option Json → Bool
  | none => false
  | some v => truthy v

/-- The string a value interpolates to inside a template literal.
Only its string/number/bool/null cases occur in the modelled payloads. -/
def jsDisplay : Json → String
  | .str s => s
  | .num q => if q.den = 1 then toString q.num else toString q
  | .bool true => "true"
  | .bool false => "false"
  | .null => "null"
  | .arr _ => ""
  | .obj _ => "[object Object]"

/-- An object literal whose entries may be `undefined`: `undefined` entries
are dropped, as `JSON.stringify` drops them from the serialized object and
property access cannot distinguish a dropped entry from an `undefined` one. -/
def mkObj (l : List (String × Option Json)) : Json :=
  .obj (l.filterMap fun p => p.2.map fun v => (p.1, v))

/-- Lookup through a list of possibly-`undefined` entries, skipping the
`undefined` ones: the view of `mkObj` that `Json.getField` produces. -/
def lookupO : List (String × Option Json) → String → Option Json
  | [], _ => none
  | (_, none) :: rest, k => lookupO rest k
  | (k', some x) :: rest, k => if k == k' then some x else lookupO rest k

theorem getField_mkObj (l : List (String × Option Json)) (k : String) :
    (mkObj l).getField k = lookupO l k := by
  induction l with
  | nil => rfl
  | cons p rest ih =>
    obtain ⟨k', v⟩ := p
    cases v with
    | none =>
      simp only [mkObj, List.filterMap_cons, Option.map_none', lookupO] at ih ⊢
      exact ih
    | some x =>
      simp only [mkObj, List.filterMap_cons, Option.map_some', lookupO] at ih ⊢
      cases h : (k == k') <;>
        simp [Json.getField, List.lookup, h] at ih ⊢ <;> exact ih

theorem lookupO_cons_ne (k' k : String) (v : Option Json)
    (rest : List (String × Option Json)) (h : (k == k') = false) :
    lookupO ((k', v) :: rest) k = lookupO rest k := by
  cases v <;> simp [lookupO, h]

/-- Two-space padding used by `JSON.stringify(v, null, 2)`. -/
def pad (n : Nat) : String := String.mk (List.replicate n ' ')

/-- Escape of one character inside a serialized JSON string (the control
characters other than the common escapes do not occur in the payloads). -/
def escChar (c : Char) : String :=
  if c = '"' then "\\\""
  else if c = '\\' then "\\\\"
  else if c = '\n' then "\\n"
  else if c = '\t' then "\\t"
  else if c = '\r' then "\\r"
  else String.mk [c]

/-- A serialized JSON string literal. -/
def jsStringQuote (s : String) : String :=
  "\"" ++ (s.data.foldr (fun c acc => escChar c ++ acc) "") ++ "\""

/-- Serialization of a JSON number (integers render as in JavaScript; the
fractional rendering is a placeholder no modelled payload reaches). -/
def jsNumString (q : Rat) : String :=
  if q.den = 1 then toString q.num else toString q

mutual
/-- `JSON.stringify(v, null, 2)` at nesting indentation `ind`. -/
def stringify : Json → Nat → String
  | .null, _ => "null"
  | .bool true, _ => "true"
  | .bool false, _ => "false"
  | .num q, _ => jsNumString q
  | .str s, _ => jsStringQuote s
  | .arr [], _ => "[]"
  | .arr (e :: rest), ind =>
    "[\n" ++ String.intercalate ",\n" (stringifyItems (e :: rest) (ind + 2)) ++
      "\n" ++ pad ind ++ "]"
  | .obj [], _ => "\x7b\x7d"
  | .obj (p :: rest), ind =>
    "\x7b\n" ++ String.intercalate ",\n" (stringifyFields (p :: rest) (ind + 2)) ++
      "\n" ++ pad ind ++ "\x7d"

/-- The serialized lines of an array's items. -/
def stringifyItems : List Json → Nat → List String
  | [], _ => []
  | e :: rest, ind => (pad ind ++ stringify e ind) :: stringifyItems rest ind

/-- The serialized lines of an object's fields. -/
def stringifyFields : List (String × Json) → Nat → List String
  | [], _ => []
  | (k, v) :: rest, ind =>
    (pad ind ++ jsStringQuote k ++ ": " ++ stringify v ind) :: stringifyFields rest ind
end

/-! ## Input schemas (the zod objects of src/index.ts)

Each schema parses the untyped `arguments` value, collecting, per declared
field in declaration order, the issue messages of the fields that fail.
Unknown extra keys are ignored, as `z.object` ignores them. -/

/-- The zod parsed-type name appearing in its issue messages. -/
def jsonTypeName : Json → String
  | .null => "null"
  | .bool _ => "boolean"
  | .num _ => "number"
  | .str _ => "string"
  | .arr _ => "array"
  | .obj _ => "object"

/-- `z.string().optional()` on field `k`. -/
def zStrOpt (args : Json) (k : String) : Except (List String) (Option String) :=
  match args.getField k with
  | none => .ok none
  | some (.str s) => .ok (some s)
  | some v => .error ["Expected string, received " ++ jsonTypeName v]

/-- `z.string()` (required) on field `k`. -/
def zStrReq (args : Json) (k : String) : Except (List String) String :=
  match args.getField k with
  | none => .error ["Required"]
  | some (.str s) => .ok s
  | some v => .error ["Expected string, received " ++ jsonTypeName v]

/-- `z.array(z.string()).optional()` on field `k`: one issue per element
that is not a string. -/
def zArrStrOpt (args : Json) (k : String) :
    Except (List String) (Option (List String)) :=
  match args.getField k with
  | none => .ok none
  | some (.arr l) =>
    match l.mapM (fun e => match e with | .str s => some s | _ => none) with
    | some ss => .ok (some ss)
    | none =>
      .error (l.filterMap fun e =>
        match e with
        | .str _ => none
        | v => some ("Expected string, received " ++ jsonTypeName v))
  | some v => .error ["Expected array, received " ++ jsonTypeName v]

/-- `z.number().optional().default(d)` on field `k`: a missing field takes
the default; any JSON number passes (no range or integrality bound). -/
def zNumDefault (args : Json) (k : String) (d : Rat) : Except (List String) Rat :=
  match args.getField k with
  | none => .ok d
  | some (.num q) => .ok q
  | some v => .error ["Expected number, received " ++ jsonTypeName v]

/-- The issue messages a field result contributes. -/
def issuesOf {α : Type} : Except (List String) α → List String
  | .error msgs => msgs
  | .ok _ => []

/-- `SearchPeopleSchema.parse` output. -/
structure SearchPeopleValidated where
  keywords : Option String
  titles : Option (List String)
  locations : Option (List String)
  organization_ids : Option (List String)
  page : Rat
  per_page : Rat
deriving Repr, DecidableEq

/-- `SearchPeopleSchema.parse`. -/
def parseSearchPeople (args : Json) :
    Except (List String) SearchPeopleValidated :=
  match args with
  | .obj _ =>
    match zStrOpt args "keywords", zArrStrOpt args "titles",
        zArrStrOpt args "locations", zArrStrOpt args "organization_ids",
        zNumDefault args "page" 1, zNumDefault args "per_page" 10 with
    | .ok kw, .ok ts, .ok ls, .ok os, .ok p, .ok pp => .ok ⟨kw, ts, ls, os, p, pp⟩
    | r1, r2, r3, r4, r5, r6 =>
      .error (issuesOf r1 ++ issuesOf r2 ++ issuesOf r3 ++ issuesOf r4 ++
        issuesOf r5 ++ issuesOf r6)
  | v => .error ["Expected object, received " ++ jsonTypeName v]

/-- `EnrichPersonSchema.parse` output. -/
structure EnrichPersonValidated where
  first_name : Option String
  last_name : Option String
  email : Option String
  domain : Option String
  organization_name : Option String
deriving Repr, DecidableEq

/-- `EnrichPersonSchema.parse`. -/
def parseEnrichPerson (args : Json) :
    Except (List String) EnrichPersonValidated :=
  match args with
  | .obj _ =>
    match zStrOpt args "first_name", zStrOpt args "last_name",
        zStrOpt args "email", zStrOpt args "domain",
        zStrOpt args "organization_name" with
    | .ok fn, .ok ln, .ok em, .ok dom, .ok org => .ok ⟨fn, ln, em, dom, org⟩
    | r1, r2, r3, r4, r5 =>
      .error (issuesOf r1 ++ issuesOf r2 ++ issuesOf r3 ++ issuesOf r4 ++
        issuesOf r5)
  | v => .error ["Expected object, received " ++ jsonTypeName v]

/-- `EnrichOrganizationSchema.parse` (the one required field, `domain`). -/
def parseEnrichOrganization (args : Json) : Except (List String) String :=
  match args with
  | .obj _ => zStrReq args "domain"
  | v => .error ["Expected object, received " ++ jsonTypeName v]

/-- `SearchOrganizationsSchema.parse` output. -/
structure SearchOrganizationsValidated where
  keywords : Option String
  locations : Option (List String)
  employee_ranges : Option (List String)
  page : Rat
  per_page : Rat
deriving Repr, DecidableEq

/-- `SearchOrganizationsSchema.parse`. -/
def parseSearchOrganizations (args : Json) :
    Except (List String) SearchOrganizationsValidated :=
  match args with
  | .obj _ =>
    match zStrOpt args "keywords", zArrStrOpt args "locations",
        zArrStrOpt args "employee_ranges", zNumDefault args "page" 1,
        zNumDefault args "per_page" 10 with
    | .ok kw, .ok ls, .ok er, .ok p, .ok pp => .ok ⟨kw, ls, er, p, pp⟩
    | r1, r2, r3, r4, r5 =>
      .error (issuesOf r1 ++ issuesOf r2 ++ issuesOf r3 ++ issuesOf r4 ++
        issuesOf r5)
  | v => .error ["Expected object, received " ++ jsonTypeName v]

/-- `SearchSequencesSchema.parse` output. -/
structure SearchSequencesValidated where
  name : Option String
  page : Rat
  per_page : Rat
deriving Repr, DecidableEq

/-- `SearchSequencesSchema.parse`. -/
def parseSearchSequences (args : Json) :
    Except (List String) SearchSequencesValidated :=
  match args with
  | .obj _ =>
    match zStrOpt args "name", zNumDefault args "page" 1,
        zNumDefault args "per_page" 25 with
    | .ok n, .ok p, .ok pp => .ok ⟨n, p, pp⟩
    | r1, r2, r3 => .error (issuesOf r1 ++ issuesOf r2 ++ issuesOf r3)
  | v => .error ["Expected object, received " ++ jsonTypeName v]

/-- `GetEmailMessageActivitiesSchema.parse` (the one required field,
`message_id`). -/
def parseGetEmailMessageActivities (args : Json) : Except (List String) String :=
  match args with
  | .obj _ => zStrReq args "message_id"
  | v => .error ["Expected object, received " ++ jsonTypeName v]

/-! ## Remote request parameters and the truthiness-guarded field mapping -/

/-- `if (validated.field) params.renamed = validated.field` for a string
field: a missing or empty string is falsy and is not copied. -/
def strTruthy : Option String → Option String
  | some s => if s == "" then none else some s
  | none => none

/-- Body of `POST /mixed_people/search`. -/
structure PeopleSearchParams where
  q_keywords : Option String
  person_titles : Option (List String)
  person_locations : Option (List String)
  organization_ids : Option (List String)
  page : Rat
  per_page : Rat
deriving Repr, DecidableEq

/-- The `apollo_search_people` case's param construction: `page`/`per_page`
always, each optional field only when truthy (an array, even empty, is
always truthy; a string only when non-empty). -/
def buildPeopleParams (v : SearchPeopleValidated) : PeopleSearchParams where
  q_keywords := strTruthy v.keywords
  person_titles := v.titles
  person_locations := v.locations
  organization_ids := v.organization_ids
  page := v.page
  per_page := v.per_page

/-- Body of `POST /people/match`. -/
structure EnrichPersonParams where
  first_name : Option String
  last_name : Option String
  email : Option String
  domain : Option String
  organization_name : Option String
deriving Repr, DecidableEq

/-- The `apollo_enrich_person` case's param construction. -/
def buildEnrichPersonParams (v : EnrichPersonValidated) : EnrichPersonParams where
  first_name := strTruthy v.first_name
  last_name := strTruthy v.last_name
  email := strTruthy v.email
  domain := strTruthy v.domain
  organization_name := strTruthy v.organization_name

/-- Body of `POST /mixed_companies/search`. -/
structure OrgSearchParams where
  q_keywords : Option String
  organization_locations : Option (List String)
  organization_num_employees_ranges : Option (List String)
  page : Rat
  per_page : Rat
deriving Repr, DecidableEq

/-- The `apollo_search_organizations` case's param construction. -/
def buildOrgParams (v : SearchOrganizationsValidated) : OrgSearchParams where
  q_keywords := strTruthy v.keywords
  organization_locations := v.locations
  organization_num_employees_ranges := v.employee_ranges
  page := v.page
  per_page := v.per_page

/-- Body of `POST /emailer_campaigns/search`. -/
structure SeqSearchParams where
  name : Option String
  page : Rat
  per_page : Rat
deriving Repr, DecidableEq

/-- The `apollo_search_sequences` case's param construction. -/
def buildSeqParams (v : SearchSequencesValidated) : SeqSearchParams where
  name := strTruthy v.name
  page := v.page
  per_page := v.per_page

/-- One remote call of the ApolloClient, with the parameters it is given:
the six operations of the client (message activities carry the
path-interpolated id). -/
inductive RemoteCall where
  | searchPeople (params : PeopleSearchParams)
  | enrichPerson (params : EnrichPersonParams)
  | enrichOrganization (domain : String)
  | searchOrganizations (params : OrgSearchParams)
  | searchSequences (params : SeqSearchParams)
  | getEmailAccounts
  | getEmailMessageActivities (messageId : String)
deriving Repr, DecidableEq

/-! ## Summaries -/

/-- `p.city && p.state ? `{city}, {state}` : p.country` — the location
field shared by the people and organization summaries. -/
def jsLocation (r : Json) : Option Json :=
  match r.getField "city", r.getField "state" with
  | some c, some s =>
    if truthy c && truthy s then
      some (.str (jsDisplay c ++ ", " ++ jsDisplay s))
    else r.getField "country"
  | _, _ => r.getField "country"

/-- One person entry of the `apollo_search_people` summary. -/
def searchPersonSummary (p : Json) : Json :=
  mkObj [("name", p.getField "name"),
         ("title", p.getField "title"),
         ("company", (p.getField "organization").bind (Json.getField · "name")),
         ("location", jsLocation p),
         ("email", p.getField "email"),
         ("linkedin", p.getField "linkedin_url")]

/-- `person.phone_numbers?.[0]?.sanitized_number`. -/
def firstPhone (p : Json) : Option Json :=
  match p.getField "phone_numbers" with
  | some (.arr l) => l.head?.bind (Json.getField · "sanitized_number")
  | _ => none

/-- The `apollo_enrich_person` summary. -/
def enrichPersonSummary (person : Json) : Json :=
  mkObj [("name", person.getField "name"),
         ("title", person.getField "title"),
         ("company", (person.getField "organization").bind (Json.getField · "name")),
         ("email", person.getField "email"),
         ("phone", firstPhone person),
         ("linkedin", person.getField "linkedin_url"),
         ("location", jsLocation person)]

/-- `org.current_technologies?.slice(0, 10)` once the value is known to be
defined. A non-array, non-string value would make the JavaScript throw a
TypeError; such payloads are outside the modelled domain and are returned
unchanged. -/
def jsSlice10 : Json → Json
  | .arr l => .arr (l.take 10)
  | .str s => .str (String.mk (s.data.take 10))
  | v => v

/-- The `apollo_enrich_organization` summary. -/
def enrichOrgSummary (org : Json) : Json :=
  mkObj [("name", org.getField "name"),
         ("domain", org.getField "primary_domain"),
         ("industry", org.getField "industry"),
         ("employees", org.getField "estimated_num_employees"),
         ("location", jsLocation org),
         ("description", org.getField "short_description"),
         ("founded", org.getField "founded_year"),
         ("linkedin", org.getField "linkedin_url"),
         ("technologies", (org.getField "current_technologies").map jsSlice10)]

/-- One organization entry of the `apollo_search_organizations` summary. -/
def searchOrgSummary (o : Json) : Json :=
  mkObj [("name", o.getField "name"),
         ("domain", o.getField "primary_domain"),
         ("industry", o.getField "industry"),
         ("employees", o.getField "estimated_num_employees"),
         ("location", jsLocation o)]

/-- One sequence entry of the `apollo_search_sequences` summary (`stats`
is an object literal, hence always present). -/
def seqSummary (s : Json) : Json :=
  mkObj [("id", s.getField "id"),
         ("name", s.getField "name"),
         ("active", s.getField "active"),
         ("num_steps", s.getField "num_steps"),
         ("stats", some (mkObj
           [("sent", s.getField "num_contacted_people"),
            ("bounced", s.getField "num_bounced_people"),
            ("replied", s.getField "num_replied_people"),
            ("interested", s.getField "num_interested_people"),
            ("opt_out", s.getField "num_opt_out_people")]))]

/-- One account entry of the `apollo_get_email_accounts` summary. -/
def accountSummary (a : Json) : Json :=
  mkObj [("id", a.getField "id"),
         ("email", a.getField "email"),
         ("active", a.getField "active"),
         ("type", a.getField "type")]

/-- Whether an activity's `touch_type` strictly equals the string `s`
(`a.touch_type === s`: an absent or non-string field never matches). -/
def touchIs (s : String) (a : Json) : Bool :=
  match a.getField "touch_type" with
  | some (.str t) => t == s
  | _ => false

/-- One entry of the activities listing. -/
def reduceActivity (a : Json) : Json :=
  mkObj [("type", a.getField "touch_type"),
         ("created_at", a.getField "created_at"),
         ("user_agent", a.getField "user_agent")]

/-- The `apollo_get_email_message_activities` aggregate summary. -/
def activitiesSummary (messageId : String) (activities : List Json) : Json :=
  .obj [("message_id", .str messageId),
        ("total_activities", .num activities.length),
        ("opens", .num (activities.countP (touchIs "opened"))),
        ("clicks", .num (activities.countP (touchIs "clicked"))),
        ("replies", .num (activities.countP (touchIs "replied"))),
        ("activities", .arr (activities.map reduceActivity))]

/-! ## Text rendering of the tool responses -/

/-- `expr || []`: the list when the value is an array, else the empty
list (a falsy value falls back; a truthy non-array would make the
subsequent array methods throw and is outside the modelled domain). -/
def jsArrOr (v : Option Json) : List Json :=
  match v with
  | some (.arr l) => l
  | _ => []

/-- `result.pagination?.total_entries || 0`. -/
def totalEntries (result : Json) : Json :=
  match (result.getField "pagination").bind (Json.getField · "total_entries") with
  | some v => if truthy v then v else .num 0
  | none => .num 0

/-- The status line of `apollo_search_people`. -/
def peopleCountLine (result : Json) : String :=
  "Found " ++ jsDisplay (totalEntries result) ++ " people"

/-- The `apollo_search_people` response text. -/
def searchPeopleRender (result : Json) : String :=
  peopleCountLine result ++ "\n\n" ++
    "Top Results:\n" ++
    stringify (.arr (((jsArrOr (result.getField "people")).take 5).map
      searchPersonSummary)) 0 ++
    "\n\n" ++ "Full data:\n" ++ stringify result 0

/-- The `apollo_enrich_person` response text: the fixed not-found sentence
when `result.person` is falsy, else header, summary and full data. -/
def enrichPersonRender (result : Json) : String :=
  match result.getField "person" with
  | some person =>
    if truthy person then
      "Person Enrichment:\n\n" ++ stringify (enrichPersonSummary person) 0 ++
        "\n\n" ++ "Full data:\n" ++ stringify result 0
    else "No person found with the provided information."
  | none => "No person found with the provided information."

/-- The `apollo_enrich_organization` response text. -/
def enrichOrgRender (result : Json) : String :=
  match result.getField "organization" with
  | some org =>
    if truthy org then
      "Organization Enrichment:\n\n" ++ stringify (enrichOrgSummary org) 0 ++
        "\n\n" ++ "Full data:\n" ++ stringify result 0
    else "No organization found with the provided domain."
  | none => "No organization found with the provided domain."

/-- The status line of `apollo_search_organizations`. -/
def orgsCountLine (result : Json) : String :=
  "Found " ++ jsDisplay (totalEntries result) ++ " organizations"

/-- The `apollo_search_organizations` response text. -/
def searchOrgsRender (result : Json) : String :=
  orgsCountLine result ++ "\n\n" ++
    "Top Results:\n" ++
    stringify (.arr (((jsArrOr (result.getField "organizations")).take 5).map
      searchOrgSummary)) 0 ++
    "\n\n" ++ "Full data:\n" ++ stringify result 0

/-- The status line of `apollo_search_sequences` (counting the returned
list, not a pagination field). -/
def seqCountLine (result : Json) : String :=
  "Found " ++ toString (jsArrOr (result.getField "emailer_campaigns")).length ++
    " sequences"

/-- The `apollo_search_sequences` response text. -/
def searchSeqRender (result : Json) : String :=
  seqCountLine result ++ "\n\n" ++
    "Summary:\n" ++
    stringify (.arr ((jsArrOr (result.getField "emailer_campaigns")).map
      seqSummary)) 0 ++
    "\n\n" ++ "Full data:\n" ++ stringify result 0

/-- The status line of `apollo_get_email_accounts`. -/
def accountsCountLine (result : Json) : String :=
  "Found " ++ toString (jsArrOr (result.getField "email_accounts")).length ++
    " email accounts"

/-- The `apollo_get_email_accounts` response text. -/
def accountsRender (result : Json) : String :=
  accountsCountLine result ++ "\n\n" ++
    "Accounts:\n" ++
    stringify (.arr ((jsArrOr (result.getField "email_accounts")).map
      accountSummary)) 0 ++
    "\n\n" ++ "Full data:\n" ++ stringify result 0

/-- The `apollo_get_email_message_activities` response text. -/
def activitiesRender (messageId : String) (result : Json) : String :=
  "Email Message Activities:\n\n" ++
    stringify (activitiesSummary messageId
      (jsArrOr (result.getField "emailer_touches"))) 0 ++
    "\n\n" ++ "Full data:\n" ++ stringify result 0

/-! ## Errors and the try/catch classification -/

/-- The MCP SDK error codes used by the handler (JSON-RPC codes). -/
inductive ErrorCode where
  | methodNotFound
  | invalidParams
  | invalidRequest
  | internalError
deriving Repr, DecidableEq

/-- The JSON-RPC number of a code. -/
def ErrorCode.codeNum : ErrorCode → Int
  | .methodNotFound => -32601
  | .invalidParams => -32602
  | .invalidRequest => -32600
  | .internalError => -32603

/-- The decimal rendering of a code, as it appears interpolated into the
SDK's `McpError` message. -/
def ErrorCode.codeStr : ErrorCode → String
  | .methodNotFound => "-32601"
  | .invalidParams => "-32602"
  | .invalidRequest => "-32600"
  | .internalError => "-32603"

/-- The typed error the handler throws to the runtime. -/
structure McpError where
  code : ErrorCode
  message : String
deriving Repr, DecidableEq

/-- A value thrown inside the handler's `try` block: a zod validation
failure, an `McpError` (the unknown-tool throw of the `default:` case), an
HTTP client error carrying `response.status`, or any other error with a
possibly absent `.message`. -/
inductive ThrownError where
  | zodError (messages : List String)
  | mcpError (code : ErrorCode) (message : String)
  | axiosError (status : Nat) (message : String)
  | otherError (message : Option String)
deriving Repr, DecidableEq

/-- `error.response?.status`: only the HTTP client error has a response. -/
def respStatus : ThrownError → Option Nat
  | .axiosError s _ => some s
  | _ => none

/-- `error.message`. The SDK's `McpError` constructor sets the message to
`MCP error <code>: <message>` (the zod case is listed for totality; the
`instanceof ZodError` test precedes every read of `.message`). -/
def errMessage : ThrownError → Option String
  | .zodError msgs => some (String.intercalate "; " msgs)
  | .mcpError c m => some ("MCP error " ++ c.codeStr ++ ": " ++ m)
  | .axiosError _ m => some m
  | .otherError m => m

/-- `error.message || "An unexpected error occurred"`. -/
def msgOr : Option String → String
  | some s => if s == "" then "An unexpected error occurred" else s
  | none => "An unexpected error occurred"

/-- The `catch` block of the tool-call handler: zod errors first, then
the 401 and 429 response statuses, then the generic internal error. -/
def classify (e : ThrownError) : McpError :=
  match e with
  | .zodError issues =>
    ⟨.invalidParams, "Invalid parameters: " ++ String.intercalate ", " issues⟩
  | e =>
    if respStatus e = some 401 then
      ⟨.invalidRequest,
        "Invalid Apollo API key. Check your APOLLO_API_KEY environment variable."⟩
    else if respStatus e = some 429 then
      ⟨.internalError, "Apollo API rate limit exceeded. Please wait and try again."⟩
    else ⟨.internalError, msgOr (errMessage e)⟩

/-! ## Dispatch -/

/-- One block of a tool response's `content`. -/
inductive Content where
  | text (s : String)
deriving Repr, DecidableEq

/-- A successful tool response: its `content` list. -/
structure ToolResponse where
  content : List Content
deriving Repr, DecidableEq

/-- `{ content: [{ type: "text", text: s }] }`. -/
def textResponse (s : String) : ToolResponse := ⟨[.text s]⟩

/-- The seven tool names of the catalog, in catalog order. -/
def toolNames : List String :=
  ["apollo_search_people", "apollo_enrich_person", "apollo_enrich_organization",
   "apollo_search_organizations", "apollo_search_sequences",
   "apollo_get_email_accounts", "apollo_get_email_message_activities"]

/-- The body of the `try` block: dispatch on the tool name, validate,
map, invoke the remote operation (its outcome supplied by `remote`), and
render. An unmatched name throws `McpError(MethodNotFound, ...)`. -/
def callToolInner (name : String) (args : Json)
    (remote : RemoteCall → Except ThrownError Json) :
    Except ThrownError ToolResponse :=
  if name = "apollo_search_people" then
    match parseSearchPeople args with
    | .error issues => .error (.zodError issues)
    | .ok v =>
      match remote (.searchPeople (buildPeopleParams v)) with
      | .error e => .error e
      | .ok result => .ok (textResponse (searchPeopleRender result))
  else if name = "apollo_enrich_person" then
    match parseEnrichPerson args with
    | .error issues => .error (.zodError issues)
    | .ok v =>
      match remote (.enrichPerson (buildEnrichPersonParams v)) with
      | .error e => .error e
      | .ok result => .ok (textResponse (enrichPersonRender result))
  else if name = "apollo_enrich_organization" then
    match parseEnrichOrganization args with
    | .error issues => .error (.zodError issues)
    | .ok domain =>
      match remote (.enrichOrganization domain) with
      | .error e => .error e
      | .ok result => .ok (textResponse (enrichOrgRender result))
  else if name = "apollo_search_organizations" then
    match parseSearchOrganizations args with
    | .error issues => .error (.zodError issues)
    | .ok v =>
      match remote (.searchOrganizations (buildOrgParams v)) with
      | .error e => .error e
      | .ok result => .ok (textResponse (searchOrgsRender result))
  else if name = "apollo_search_sequences" then
    match parseSearchSequences args with
    | .error issues => .error (.zodError issues)
    | .ok v =>
      match remote (.searchSequences (buildSeqParams v)) with
      | .error e => .error e
      | .ok result => .ok (textResponse (searchSeqRender result))
  else if name = "apollo_get_email_accounts" then
    match remote .getEmailAccounts with
    | .error e => .error e
    | .ok result => .ok (textResponse (accountsRender result))
  else if name = "apollo_get_email_message_activities" then
    match parseGetEmailMessageActivities args with
    | .error issues => .error (.zodError issues)
    | .ok messageId =>
      match remote (.getEmailMessageActivities messageId) with
      | .error e => .error e
      | .ok result => .ok (textResponse (activitiesRender messageId result))
  else .error (.mcpError .methodNotFound ("Unknown tool: " ++ name))

/-- The whole `CallToolRequestSchema` handler: the `try` body wrapped by
the `catch` classification. -/
def callTool (name : String) (args : Json)
    (remote : RemoteCall → Except ThrownError Json) :
    Except McpError ToolResponse :=
  match callToolInner name args remote with
  | .ok r => .ok r
  | .error e => .error (classify e)

/-! ## String helper lemmas -/

theorem strDataAppend (a b : String) : (a ++ b).data = a.data ++ b.data := rfl

theorem strExt (a b : String) (h : a.data = b.data) : a = b := by
  cases a; cases b; exact congrArg String.mk h

theorem strAppendAssoc (a b c : String) : a ++ b ++ c = a ++ (b ++ c) := by
  apply strExt
  simp [strDataAppend]

theorem strNeEmptyAppend (a b : String) (h : a ≠ "") : a ++ b ≠ "" := by
  intro hc
  apply h
  have hd := congrArg String.data hc
  rw [strDataAppend] at hd
  have : a.data = [] := List.append_eq_nil.mp hd |>.1
  exact strExt a "" this

/-- Splitting a character list at its first newline is unambiguous. -/
theorem splitAtNewline (a : List Char) :
    ∀ (x b y : List Char), '\n' ∉ a → '\n' ∉ b →
      a ++ '\n' :: x = b ++ '\n' :: y → a = b ∧ x = y := by
  induction a with
  | nil =>
    intro x b y _ hb h
    cases b with
    | nil => simpa using h
    | cons d bs =>
      simp only [List.nil_append, List.cons_append, List.cons.injEq] at h
      exact absurd (h.1 ▸ List.mem_cons_self d bs) hb
  | cons c as ih =>
    intro x b y ha hb h
    cases b with
    | nil =>
      simp only [List.nil_append, List.cons_append, List.cons.injEq] at h
      exact absurd (h.1 ▸ List.mem_cons_self c as) ha
    | cons d bs =>
      simp only [List.cons_append, List.cons.injEq] at h
      obtain ⟨rfl, h2⟩ := h
      have := ih x bs y (fun m => ha (List.mem_cons_of_mem _ m))
        (fun m => hb (List.mem_cons_of_mem _ m)) h2
      exact ⟨by rw [this.1], this.2⟩

/-- A newline-free header followed by a colon line cannot produce a line
that opens with a different character followed directly by a newline. -/
theorem headerClash (h : List Char) (z r : List Char) (c : Char)
    (hnl : '\n' ∉ h) (hc : c ≠ ':')
    (he : h ++ ':' :: '\n' :: z = c :: '\n' :: r) : False := by
  cases h with
  | nil =>
    simp only [List.nil_append, List.cons.injEq] at he
    exact hc he.1.symm
  | cons d hs =>
    simp only [List.cons_append, List.cons.injEq] at he
    obtain ⟨rfl, he2⟩ := he
    cases hs with
    | nil =>
      simp only [List.nil_append, List.cons.injEq] at he2
      exact absurd he2.1 (by decide)
    | cons e hs' =>
      simp only [List.cons_append, List.cons.injEq] at he2
      exact hnl (he2.1 ▸ List.mem_cons_of_mem _ (List.mem_cons_self e hs'))

/-! ## Claims -/

/-- Claim C10: the search schemas place no range, integrality or positivity
constraint on `page`/`per_page`: every rational number — 0, negatives,
non-integers, values above 100 — validates on all three search schemas and
is returned unchanged. -/
theorem C10_no_pagination_bounds (p pp : Rat) :
    parseSearchPeople (.obj [("page", .num p), ("per_page", .num pp)]) =
        .ok ⟨none, none, none, none, p, pp⟩
      ∧ parseSearchOrganizations (.obj [("page", .num p), ("per_page", .num pp)]) =
        .ok ⟨none, none, none, p, pp⟩
      ∧ parseSearchSequences (.obj [("page", .num p), ("per_page", .num pp)]) =
        .ok ⟨none, p, pp⟩ :=
  ⟨rfl, rfl, rfl⟩

/-- Claim C8: an argument object that omits `page` and `per_page` validates
to `page = 1, per_page = 10` on the people and organization search schemas
and to `page = 1, per_page = 25` on the sequences schema. -/
theorem C8_pagination_defaults (kvs : List (String × Json))
    (hp : kvs.lookup "page" = none) (hpp : kvs.lookup "per_page" = none) :
    (∀ v, parseSearchPeople (.obj kvs) = .ok v → v.page = 1 ∧ v.per_page = 10)
      ∧ (∀ v, parseSearchOrganizations (.obj kvs) = .ok v →
          v.page = 1 ∧ v.per_page = 10)
      ∧ (∀ v, parseSearchSequences (.obj kvs) = .ok v →
          v.page = 1 ∧ v.per_page = 25) := by
  have h5 : zNumDefault (Json.obj kvs) "page" 1 = .ok 1 := by
    simp [zNumDefault, Json.getField, hp]
  have h6 : zNumDefault (Json.obj kvs) "per_page" 10 = .ok 10 := by
    simp [zNumDefault, Json.getField, hpp]
  have h7 : zNumDefault (Json.obj kvs) "per_page" 25 = .ok 25 := by
    simp [zNumDefault, Json.getField, hpp]
  refine ⟨?_, ?_, ?_⟩
  · intro v h
    simp only [parseSearchPeople] at h
    rw [h5, h6] at h
    cases h1 : zStrOpt (Json.obj kvs) "keywords" <;> rw [h1] at h <;>
      cases h2 : zArrStrOpt (Json.obj kvs) "titles" <;> rw [h2] at h <;>
      cases h3 : zArrStrOpt (Json.obj kvs) "locations" <;> rw [h3] at h <;>
      cases h4 : zArrStrOpt (Json.obj kvs) "organization_ids" <;> rw [h4] at h <;>
      simp only [] at h <;>
      first
        | exact Except.noConfusion h
        | · injection h with h2
            subst h2
            exact ⟨rfl, rfl⟩
  · intro v h
    simp only [parseSearchOrganizations] at h
    rw [h5, h6] at h
    cases h1 : zStrOpt (Json.obj kvs) "keywords" <;> rw [h1] at h <;>
      cases h2 : zArrStrOpt (Json.obj kvs) "locations" <;> rw [h2] at h <;>
      cases h3 : zArrStrOpt (Json.obj kvs) "employee_ranges" <;> rw [h3] at h <;>
      simp only [] at h <;>
      first
        | exact Except.noConfusion h
        | · injection h with h2
            subst h2
            exact ⟨rfl, rfl⟩
  · intro v h
    simp only [parseSearchSequences] at h
    rw [h5, h7] at h
    cases h1 : zStrOpt (Json.obj kvs) "name" <;> rw [h1] at h <;>
      simp only [] at h <;>
      first
        | exact Except.noConfusion h
        | · injection h with h2
            subst h2
            exact ⟨rfl, rfl⟩

/-- Witness for C8: the empty argument object validates with the
documented defaults on all three search schemas. -/
theorem C8_pagination_defaults_witness :
    (parseSearchPeople (.obj []) = .ok ⟨none, none, none, none, 1, 10⟩)
      ∧ ((1 : Rat) = 1 ∧ (10 : Rat) = 10)
      ∧ ((1 : Rat) = 1 ∧ (25 : Rat) = 25) :=
  ⟨rfl,
   (C8_pagination_defaults [] rfl rfl).1 ⟨none, none, none, none, 1, 10⟩ rfl,
   (C8_pagination_defaults [] rfl rfl).2.2 ⟨none, 1, 25⟩ rfl⟩

/-- Counting with three pairwise-exclusive predicates never exceeds the
list's length. -/
theorem countP_three_le_length {α : Type} (p q r : α → Bool) (l : List α)
    (hpq : ∀ a, p a = true → q a = false)
    (hpr : ∀ a, p a = true → r a = false)
    (hqr : ∀ a, q a = true → r a = false) :
    l.countP p + l.countP q + l.countP r ≤ l.length := by
  induction l with
  | nil => simp [List.countP_nil]
  | cons a t ih =>
    simp only [List.countP_cons, List.length_cons]
    by_cases hp : p a = true
    · have hq := hpq a hp
      have hr := hpr a hp
      simp [hp, hq, hr]
      omega
    · have hp' : p a = false := by revert hp; cases p a <;> simp
      by_cases hq : q a = true
      · have hr := hqr a hq
        simp [hp', hq, hr]
        omega
      · have hq' : q a = false := by revert hq; cases q a <;> simp
        cases hr : r a <;> simp [hp', hq', hr] <;> omega

theorem touchIs_excl (s t : String) (a : Json) (hne : s ≠ t)
    (h : touchIs s a = true) : touchIs t a = false := by
  unfold touchIs at h ⊢
  revert h
  generalize a.getField "touch_type" = g
  intro h
  cases g with
  | none => exact absurd h (by simp)
  | some v =>
    cases v with
    | str u =>
      have hu : u = s := by simpa using h
      subst hu
      exact beq_eq_false_iff_ne.mpr fun hc => hne hc
    | null => exact absurd h (by simp)
    | bool b => exact absurd h (by simp)
    | num q => exact absurd h (by simp)
    | arr l => exact absurd h (by simp)
    | obj o => exact absurd h (by simp)

/-- Claim C9: for every activity list, the message-activities summary has
`total_activities` equal to the list's length, an `activities` field that
is the order-preserving reduction of the input list (hence of the same
length), per-touch-type counters, and `opens + clicks + replies` never
exceeding `total_activities` (entries of any other `touch_type` are listed
but counted by none of the three). -/
theorem C9_activities_summary (mid : String) (acts : List Json) :
    (activitiesSummary mid acts).getField "total_activities" =
        some (.num acts.length)
      ∧ (activitiesSummary mid acts).getField "activities" =
        some (.arr (acts.map reduceActivity))
      ∧ (acts.map reduceActivity).length = acts.length
      ∧ (activitiesSummary mid acts).getField "opens" =
        some (.num (acts.countP (touchIs "opened")))
      ∧ (activitiesSummary mid acts).getField "clicks" =
        some (.num (acts.countP (touchIs "clicked")))
      ∧ (activitiesSummary mid acts).getField "replies" =
        some (.num (acts.countP (touchIs "replied")))
      ∧ acts.countP (touchIs "opened") + acts.countP (touchIs "clicked") +
          acts.countP (touchIs "replied") ≤ acts.length := by
  refine ⟨rfl, rfl, List.length_map _ _, rfl, rfl, rfl, ?_⟩
  exact countP_three_le_length _ _ _ acts
    (fun a => touchIs_excl "opened" "clicked" a (by decide))
    (fun a => touchIs_excl "opened" "replied" a (by decide))
    (fun a => touchIs_excl "clicked" "replied" a (by decide))

/-- The `technologies` field of the organization-enrichment summary is the
capped copy of `current_technologies` (absent when that field is absent). -/
theorem techField_enrichOrg (org : Json) :
    (enrichOrgSummary org).getField "technologies" =
      (org.getField "current_technologies").map jsSlice10 := by
  rw [enrichOrgSummary, getField_mkObj,
    lookupO_cons_ne _ _ _ _ (by decide), lookupO_cons_ne _ _ _ _ (by decide),
    lookupO_cons_ne _ _ _ _ (by decide), lookupO_cons_ne _ _ _ _ (by decide),
    lookupO_cons_ne _ _ _ _ (by decide), lookupO_cons_ne _ _ _ _ (by decide),
    lookupO_cons_ne _ _ _ _ (by decide), lookupO_cons_ne _ _ _ _ (by decide)]
  cases h : (org.getField "current_technologies").map jsSlice10 <;>
    simp [lookupO, h]

/-- Claim C7: when an enriched organization carries a
`current_technologies` array, the summary's `technologies` field is exactly
its first 10 entries in original order, and a list of at most 10 entries is
kept unchanged. -/
theorem C7_technologies_cap (org : Json) (l : List Json)
    (h : org.getField "current_technologies" = some (.arr l)) :
    (enrichOrgSummary org).getField "technologies" = some (.arr (l.take 10))
      ∧ (l.length ≤ 10 → l.take 10 = l) := by
  constructor
  · rw [techField_enrichOrg, h]
    rfl
  · intro hle
    exact List.take_of_length_le hle

/-- Witness for C7: a 12-entry technology list is cut to its first 10, in
order. -/
theorem C7_technologies_cap_witness :
    (enrichOrgSummary (.obj [("current_technologies",
        .arr [.num 1, .num 2, .num 3, .num 4, .num 5, .num 6, .num 7, .num 8,
              .num 9, .num 10, .num 11, .num 12])])).getField "technologies" =
      some (.arr ([Json.num 1, .num 2, .num 3, .num 4, .num 5, .num 6, .num 7,
        .num 8, .num 9, .num 10, .num 11, .num 12].take 10))
      ∧ ([Json.num 1, .num 2, .num 3, .num 4, .num 5, .num 6, .num 7, .num 8,
          .num 9, .num 10, .num 11, .num 12].length ≤ 10 →
        [Json.num 1, .num 2, .num 3, .num 4, .num 5, .num 6, .num 7, .num 8,
          .num 9, .num 10, .num 11, .num 12].take 10 =
          [Json.num 1, .num 2, .num 3, .num 4, .num 5, .num 6, .num 7, .num 8,
            .num 9, .num 10, .num 11, .num 12]) :=
  C7_technologies_cap
    (.obj [("current_technologies",
      .arr [.num 1, .num 2, .num 3, .num 4, .num 5, .num 6, .num 7, .num 8,
            .num 9, .num 10, .num 11, .num 12])])
    [Json.num 1, .num 2, .num 3, .num 4, .num 5, .num 6, .num 7, .num 8,
     .num 9, .num 10, .num 11, .num 12] rfl

/-- Claim C5: an enrichment response whose payload lacks the primary
entity field (`person` / `organization`) succeeds with only the fixed
not-found sentence — a single text block, no JSON sections, no error. -/
theorem C5_enrichment_not_found (result : Json) :
    (result.getField "person" = none →
        callTool "apollo_enrich_person" (.obj [("email", .str "x@y.com")])
            (fun _ => .ok result) =
          .ok ⟨[.text "No person found with the provided information."]⟩)
      ∧ (result.getField "organization" = none →
        callTool "apollo_enrich_organization" (.obj [("domain", .str "y.com")])
            (fun _ => .ok result) =
          .ok ⟨[.text "No organization found with the provided domain."]⟩) := by
  constructor
  · intro h
    have key : callTool "apollo_enrich_person"
        (.obj [("email", .str "x@y.com")]) (fun _ => .ok result) =
        .ok (textResponse (enrichPersonRender result)) := rfl
    rw [key]
    unfold enrichPersonRender
    rw [h]
    rfl
  · intro h
    have key : callTool "apollo_enrich_organization"
        (.obj [("domain", .str "y.com")]) (fun _ => .ok result) =
        .ok (textResponse (enrichOrgRender result)) := rfl
    rw [key]
    unfold enrichOrgRender
    rw [h]
    rfl

/-- Witness for C5: a remote payload with no `person` / `organization`
field yields the two fixed not-found responses. -/
theorem C5_enrichment_not_found_witness :
    (callTool "apollo_enrich_person" (.obj [("email", .str "x@y.com")])
        (fun _ => .ok (.obj [])) =
      .ok ⟨[.text "No person found with the provided information."]⟩)
      ∧ (callTool "apollo_enrich_organization"
          (.obj [("domain", .str "y.com")]) (fun _ => .ok (.obj [])) =
        .ok ⟨[.text "No organization found with the provided domain."]⟩) :=
  ⟨(C5_enrichment_not_found (.obj [])).1 rfl,
   (C5_enrichment_not_found (.obj [])).2 rfl⟩

/-- Claim C2: the catch block classifies in order — zod failures become
invalid-parameters errors; a response status 401 becomes an
invalid-credentials error with the fixed API-key remediation message; 429
becomes the rate-limit error with the fixed retry message; any other
thrown error becomes an internal error carrying the underlying message
verbatim (so message `"boom"` surfaces exactly as `"boom"`), with a fixed
fallback when no message is available; and a remote failure of an
invocation surfaces as exactly the classified error. -/
theorem C2_error_classification :
    (∀ msgs, classify (.zodError msgs) =
        ⟨.invalidParams, "Invalid parameters: " ++ String.intercalate ", " msgs⟩)
      ∧ (∀ m, classify (.axiosError 401 m) =
        ⟨.invalidRequest,
          "Invalid Apollo API key. Check your APOLLO_API_KEY environment variable."⟩)
      ∧ (∀ m, classify (.axiosError 429 m) =
        ⟨.internalError,
          "Apollo API rate limit exceeded. Please wait and try again."⟩)
      ∧ (∀ m, m ≠ "" → classify (.otherError (some m)) = ⟨.internalError, m⟩)
      ∧ classify (.otherError none) =
        ⟨.internalError, "An unexpected error occurred"⟩
      ∧ classify (.otherError (some "")) =
        ⟨.internalError, "An unexpected error occurred"⟩
      ∧ (∀ e, callTool "apollo_get_email_accounts" (.obj [])
          (fun _ => .error e) = .error (classify e)) := by
  refine ⟨fun msgs => rfl, fun m => rfl, fun m => rfl, ?_, rfl, rfl, fun e => rfl⟩
  intro m hm
  simp only [classify, respStatus, errMessage, msgOr]
  rw [if_neg (by simp), if_neg (by simp), if_neg (by simpa using hm)]

/-- Witness for C2: a thrown error with message `"boom"` surfaces as an
internal error whose message is exactly `"boom"`. -/
theorem C2_error_classification_witness :
    classify (.otherError (some "boom")) = ⟨.internalError, "boom"⟩ :=
  C2_error_classification.2.2.2.1 "boom" (by decide)

/-- Claim C1 (amended): dispatch on a name outside the seven-tool catalog
throws `McpError(MethodNotFound, "Unknown tool: <name>")`, but the catch
block re-wraps that throw, so the invocation surfaces an internal error
whose message carries the method-not-found text naming the offending
tool. -/
theorem C1_unknown_tool (name : String) (args : Json)
    (remote : RemoteCall → Except ThrownError Json) (h : name ∉ toolNames) :
    callTool name args remote =
      .error ⟨.internalError, "MCP error -32601: Unknown tool: " ++ name⟩ := by
  simp only [toolNames, List.mem_cons, List.not_mem_nil, or_false, not_or] at h
  obtain ⟨h1, h2, h3, h4, h5, h6, h7⟩ := h
  unfold callTool callToolInner
  rw [if_neg h1, if_neg h2, if_neg h3, if_neg h4, if_neg h5, if_neg h6, if_neg h7]
  have hne : ("MCP error " ++ ErrorCode.codeStr .methodNotFound ++ ": " ++
      ("Unknown tool: " ++ name)) ≠ "" :=
    strNeEmptyAppend _ _ (strNeEmptyAppend _ _
      (strNeEmptyAppend "MCP error " _ (by decide)))
  simp only [classify, respStatus, errMessage, msgOr]
  rw [if_neg (by simp), if_neg (by simp),
    if_neg (by simpa using hne)]
  rw [show ("MCP error -32601: Unknown tool: " : String) =
    "MCP error " ++ "-32601" ++ ": " ++ "Unknown tool: " from rfl]
  simp only [ErrorCode.codeStr, strAppendAssoc]

/-- Witness for C1 (amended): the unknown name `"foo"` surfaces as the
re-wrapped internal error. -/
theorem C1_unknown_tool_witness :
    callTool "foo" (.obj []) (fun _ => .ok .null) =
      .error ⟨.internalError, "MCP error -32601: Unknown tool: " ++ "foo"⟩ :=
  C1_unknown_tool "foo" (.obj []) (fun _ => .ok .null) (by decide)

/-- Counterexample to C1 as stated: invoking the unknown tool `"foo"`
yields an error whose kind is the internal-error code, not the
method-not-found code — the method-not-found throw does not survive the
catch block as such. -/
theorem C1_unknown_tool_counterexample :
    callTool "foo" (.obj []) (fun _ => .ok .null) =
      .error ⟨.internalError, "MCP error -32601: Unknown tool: foo"⟩
      ∧ ErrorCode.internalError ≠ ErrorCode.methodNotFound :=
  ⟨rfl, by decide⟩

/-- The truthiness guard on a string field: the copy is present exactly
when the source is a present, non-empty string. -/
theorem strTruthy_some_iff (o : Option String) (s : String) :
    strTruthy o = some s ↔ o = some s ∧ s ≠ "" := by
  cases o with
  | none => simp [strTruthy]
  | some t =>
    by_cases ht : t = ""
    · subst ht
      simp [strTruthy]
      rintro rfl
      simp
    · have hb : (t == "") = false := beq_eq_false_iff_ne.mpr ht
      simp only [strTruthy, hb, Bool.false_eq_true, if_false, Option.some.injEq]
      constructor
      · rintro rfl
        exact ⟨rfl, ht⟩
      · rintro ⟨he, _⟩
        exact he

/-- Claim C3 (amended): the remote request params copy each optional field
under its documented rename exactly when the validated field is truthy —
for the array fields (`titles`, `locations`, `organization_ids`,
`employee_ranges`) that is exactly presence, while the string field
`keywords` is additionally dropped when it is the empty string; an absent
field is never sent (never defaulted to null, empty string or 0). -/
theorem C3_param_mapping (v : SearchPeopleValidated)
    (w : SearchOrganizationsValidated) :
    ((∀ s, (buildPeopleParams v).q_keywords = some s ↔
        v.keywords = some s ∧ s ≠ "")
      ∧ (buildPeopleParams v).person_titles = v.titles
      ∧ (buildPeopleParams v).person_locations = v.locations
      ∧ (buildPeopleParams v).organization_ids = v.organization_ids
      ∧ (v.keywords = none → (buildPeopleParams v).q_keywords = none))
      ∧ ((∀ s, (buildOrgParams w).q_keywords = some s ↔
          w.keywords = some s ∧ s ≠ "")
      ∧ (buildOrgParams w).organization_locations = w.locations
      ∧ (buildOrgParams w).organization_num_employees_ranges = w.employee_ranges
      ∧ (w.keywords = none → (buildOrgParams w).q_keywords = none)) := by
  refine ⟨⟨fun s => strTruthy_some_iff v.keywords s, rfl, rfl, rfl, fun h => ?_⟩,
    ⟨fun s => strTruthy_some_iff w.keywords s, rfl, rfl, fun h => ?_⟩⟩
  · show strTruthy v.keywords = none
    rw [h]
    rfl
  · show strTruthy w.keywords = none
    rw [h]
    rfl

/-- Witness for C3 (amended): concrete validated params with a present,
non-empty `keywords` and present array fields map onto the renamed remote
fields. -/
theorem C3_param_mapping_witness :
    buildPeopleParams ⟨some "CTO", some ["VP"], some ["SF"], some ["org1"], 1, 10⟩ =
        ⟨some "CTO", some ["VP"], some ["SF"], some ["org1"], 1, 10⟩
      ∧ ((buildPeopleParams ⟨some "CTO", some ["VP"], some ["SF"], some ["org1"],
          1, 10⟩).q_keywords = some "CTO" ↔
        (some "CTO" = some "CTO" ∧ "CTO" ≠ "")) :=
  ⟨rfl, (C3_param_mapping ⟨some "CTO", some ["VP"], some ["SF"], some ["org1"], 1, 10⟩
    ⟨none, none, none, 1, 10⟩).1.1 "CTO"⟩

/-- Counterexample to C3 as stated: `keywords` present as the empty string
survives validation (it is present in the validated arguments) yet the
mapped params carry no `q_keywords` — presence alone does not imply the
field is sent. -/
theorem C3_param_mapping_counterexample :
    parseSearchPeople (.obj [("keywords", .str "")]) =
        .ok ⟨some "", none, none, none, 1, 10⟩
      ∧ (buildPeopleParams ⟨some "", none, none, none, 1, 10⟩).q_keywords = none :=
  ⟨rfl, rfl⟩

/-- The people-search summary's `location` entry is the shared location
computation. -/
theorem locField_searchPerson (r : Json) :
    (searchPersonSummary r).getField "location" = jsLocation r := by
  rw [searchPersonSummary, getField_mkObj,
    lookupO_cons_ne _ _ _ _ (by decide), lookupO_cons_ne _ _ _ _ (by decide),
    lookupO_cons_ne _ _ _ _ (by decide)]
  cases h : jsLocation r with
  | some x => simp [lookupO]
  | none =>
    show lookupO _ "location" = none
    rw [lookupO, lookupO_cons_ne _ _ _ _ (by decide),
      lookupO_cons_ne _ _ _ _ (by decide)]
    rfl

/-- The organization-enrichment summary's `location` entry is the shared
location computation. -/
theorem locField_enrichOrg (r : Json) :
    (enrichOrgSummary r).getField "location" = jsLocation r := by
  rw [enrichOrgSummary, getField_mkObj,
    lookupO_cons_ne _ _ _ _ (by decide), lookupO_cons_ne _ _ _ _ (by decide),
    lookupO_cons_ne _ _ _ _ (by decide), lookupO_cons_ne _ _ _ _ (by decide)]
  cases h : jsLocation r with
  | some x => simp [lookupO]
  | none =>
    show lookupO _ "location" = none
    rw [lookupO, lookupO_cons_ne _ _ _ _ (by decide),
      lookupO_cons_ne _ _ _ _ (by decide), lookupO_cons_ne _ _ _ _ (by decide),
      lookupO_cons_ne _ _ _ _ (by decide)]
    rfl

/-- With truthy (non-empty) string `city` and `state`, the location is the
joined pair. -/
theorem jsLocation_truthy (r : Json) (c s : String)
    (hc : r.getField "city" = some (.str c))
    (hs : r.getField "state" = some (.str s)) (hc' : c ≠ "") (hs' : s ≠ "") :
    jsLocation r = some (.str (c ++ ", " ++ s)) := by
  unfold jsLocation
  rw [hc, hs]
  simp [truthy, jsDisplay, hc', hs']

/-- With a falsy (or absent) `city` or `state`, the location falls back to
the `country` field. -/
theorem jsLocation_falsy (r : Json)
    (h : truthyOpt (r.getField "city") = false ∨
      truthyOpt (r.getField "state") = false) :
    jsLocation r = r.getField "country" := by
  unfold jsLocation
  cases hc : r.getField "city" with
  | none => rfl
  | some c =>
    cases hs : r.getField "state" with
    | none => rfl
    | some s =>
      rw [hc, hs] at h
      simp only [truthyOpt] at h
      rcases h with h | h <;> simp [h]

/-- Claim C6 (amended): a summarized person or organization record renders
`location` as `"{city}, {state}"` exactly when both `city` and `state` are
present and truthy (for strings: non-empty); otherwise — including a
present-but-empty city or state — `location` equals the record's bare
`country` field. -/
theorem C6_location_field (r : Json) (c s : String) :
    (r.getField "city" = some (.str c) → r.getField "state" = some (.str s) →
        c ≠ "" → s ≠ "" →
        (searchPersonSummary r).getField "location" =
            some (.str (c ++ ", " ++ s))
          ∧ (enrichOrgSummary r).getField "location" =
            some (.str (c ++ ", " ++ s)))
      ∧ ((truthyOpt (r.getField "city") = false ∨
          truthyOpt (r.getField "state") = false) →
        (searchPersonSummary r).getField "location" = r.getField "country"
          ∧ (enrichOrgSummary r).getField "location" = r.getField "country") := by
  constructor
  · intro hc hs hc' hs'
    rw [locField_searchPerson, locField_enrichOrg,
      jsLocation_truthy r c s hc hs hc' hs']
    exact ⟨rfl, rfl⟩
  · intro h
    rw [locField_searchPerson, locField_enrichOrg, jsLocation_falsy r h]
    exact ⟨rfl, rfl⟩

/-- Witness for C6 (amended): `city = "San Francisco"`, `state =
"California"` renders exactly `"San Francisco, California"`. -/
theorem C6_location_field_witness :
    (searchPersonSummary (.obj [("city", .str "San Francisco"),
        ("state", .str "California")])).getField "location" =
      some (.str ("San Francisco" ++ ", " ++ "California"))
      ∧ (enrichOrgSummary (.obj [("city", .str "San Francisco"),
          ("state", .str "California")])).getField "location" =
        some (.str ("San Francisco" ++ ", " ++ "California")) :=
  (C6_location_field (.obj [("city", .str "San Francisco"),
      ("state", .str "California")]) "San Francisco" "California").1
    rfl rfl (by decide) (by decide)

/-- Counterexample to C6 as stated: with `city` present as the empty
string and `state` present as `"California"`, the summary's location is
the country (`"Brazil"`), not `", California"`. -/
theorem C6_location_counterexample :
    (Json.obj [("city", .str ""), ("state", .str "California"),
        ("country", .str "Brazil")]).getField "city" = some (.str "")
      ∧ (Json.obj [("city", .str ""), ("state", .str "California"),
          ("country", .str "Brazil")]).getField "state" =
        some (.str "California")
      ∧ (searchPersonSummary (.obj [("city", .str ""),
          ("state", .str "California"),
          ("country", .str "Brazil")])).getField "location" =
        some (.str "Brazil")
      ∧ ("Brazil" : String) ≠ "" ++ ", " ++ "California" :=
  ⟨rfl, rfl, rfl, by decide⟩

/-- The output shape C4 asserts for every tool: a status line, a blank
line, a summary-header line ending in a colon, the summary JSON, then the
full-data section. -/
def C4Shape (t : String) : Prop :=
  ∃ status header s f : String,
    '\n' ∉ status.data ∧ '\n' ∉ header.data ∧
    t = status ++ "\n\n" ++ header ++ ":\n" ++ s ++ "\n\n" ++ "Full data:\n" ++ f

/-- The shape the enrichment and message-activities tools actually
produce: one header line doubling as the status line, a blank line, the
summary JSON, then the full-data section. -/
def C4ShapeMerged (t : String) : Prop :=
  ∃ header s f : String,
    '\n' ∉ header.data ∧
    t = header ++ ":\n\n" ++ s ++ "\n\n" ++ "Full data:\n" ++ f

/-- Claim C4 (amended): the two search tools, the sequences tool and the
email-accounts tool render `<status>\n\n<header>:\n<summary>\n\nFull
data:\n<full>` (whenever the interpolated count line is newline-free, as
it is for every numeric count); the two enrichment tools and the
message-activities tool instead merge the status line and the summary
header into the single line `<header>:`, rendering
`<header>:\n\n<summary>\n\nFull data:\n<full>`; both JSON sections are
present in every case. -/
theorem C4_output_shape :
    (∀ r, '\n' ∉ (peopleCountLine r).data → C4Shape (searchPeopleRender r))
      ∧ (∀ r, '\n' ∉ (orgsCountLine r).data → C4Shape (searchOrgsRender r))
      ∧ (∀ r, '\n' ∉ (seqCountLine r).data → C4Shape (searchSeqRender r))
      ∧ (∀ r, '\n' ∉ (accountsCountLine r).data → C4Shape (accountsRender r))
      ∧ (∀ r p, r.getField "person" = some p → truthy p = true →
        C4ShapeMerged (enrichPersonRender r))
      ∧ (∀ r o, r.getField "organization" = some o → truthy o = true →
        C4ShapeMerged (enrichOrgRender r))
      ∧ (∀ mid r, C4ShapeMerged (activitiesRender mid r)) := by
  refine ⟨fun r h => ?_, fun r h => ?_, fun r h => ?_, fun r h => ?_,
    fun r p hp ht => ?_, fun r o ho ht => ?_, fun mid r => ?_⟩
  · refine ⟨peopleCountLine r, "Top Results",
      stringify (.arr (((jsArrOr (r.getField "people")).take 5).map
        searchPersonSummary)) 0, stringify r 0, h, by decide, ?_⟩
    rw [searchPeopleRender,
      show ("Top Results:\n" : String) = "Top Results" ++ ":\n" from rfl]
    simp only [strAppendAssoc]
  · refine ⟨orgsCountLine r, "Top Results",
      stringify (.arr (((jsArrOr (r.getField "organizations")).take 5).map
        searchOrgSummary)) 0, stringify r 0, h, by decide, ?_⟩
    rw [searchOrgsRender,
      show ("Top Results:\n" : String) = "Top Results" ++ ":\n" from rfl]
    simp only [strAppendAssoc]
  · refine ⟨seqCountLine r, "Summary",
      stringify (.arr ((jsArrOr (r.getField "emailer_campaigns")).map
        seqSummary)) 0, stringify r 0, h, by decide, ?_⟩
    rw [searchSeqRender,
      show ("Summary:\n" : String) = "Summary" ++ ":\n" from rfl]
    simp only [strAppendAssoc]
  · refine ⟨accountsCountLine r, "Accounts",
      stringify (.arr ((jsArrOr (r.getField "email_accounts")).map
        accountSummary)) 0, stringify r 0, h, by decide, ?_⟩
    rw [accountsRender,
      show ("Accounts:\n" : String) = "Accounts" ++ ":\n" from rfl]
    simp only [strAppendAssoc]
  · refine ⟨"Person Enrichment", stringify (enrichPersonSummary p) 0,
      stringify r 0, by decide, ?_⟩
    rw [enrichPersonRender, hp]
    simp only [ht, if_true,
      show ("Person Enrichment:\n\n" : String) =
        "Person Enrichment" ++ ":\n\n" from rfl, strAppendAssoc]
  · refine ⟨"Organization Enrichment", stringify (enrichOrgSummary o) 0,
      stringify r 0, by decide, ?_⟩
    rw [enrichOrgRender, ho]
    simp only [ht, if_true,
      show ("Organization Enrichment:\n\n" : String) =
        "Organization Enrichment" ++ ":\n\n" from rfl, strAppendAssoc]
  · refine ⟨"Email Message Activities",
      stringify (activitiesSummary mid
        (jsArrOr (r.getField "emailer_touches"))) 0,
      stringify r 0, by decide, ?_⟩
    rw [activitiesRender,
      show ("Email Message Activities:\n\n" : String) =
        "Email Message Activities" ++ ":\n\n" from rfl]
    try simp only [strAppendAssoc]

/-- Witness for C4 (amended): concrete renders of a people search and a
person enrichment take the two shapes. -/
theorem C4_output_shape_witness :
    C4Shape (searchPeopleRender (.obj []))
      ∧ C4ShapeMerged
        (enrichPersonRender (.obj [("person", .obj [("name", .str "A")])])) :=
  ⟨C4_output_shape.1 (.obj []) (by decide),
   C4_output_shape.2.2.2.2.1 (.obj [("person", .obj [("name", .str "A")])])
     (.obj [("name", .str "A")]) rfl rfl⟩

/-- Counterexample to C4 as stated: the person-enrichment response for
the payload `(person: (name: "A"))` is not of the claimed shape — there is
no status line separate from the summary header: right after the blank
line the text continues with the summary JSON's opening brace, not with a
`<header>:` line. -/
theorem C4_shape_counterexample :
    ¬ C4Shape
      (enrichPersonRender (.obj [("person", .obj [("name", .str "A")])])) := by
  intro hshape
  obtain ⟨st, hd, s, f, hst, hhd, heq⟩ := hshape
  have hdata := congrArg String.data heq
  rw [show (enrichPersonRender
        (.obj [("person", .obj [("name", .str "A")])])).data =
      ("Person Enrichment:").data ++ '\n' :: '\n' :: Char.ofNat 123 :: '\n' ::
        ("  \"name\": \"A\"\n\x7d\n\nFull data:\n\x7b\n  \"person\": \x7b\n    \"name\": \"A\"\n  \x7d\n\x7d").data
    from by decide] at hdata
  simp only [strDataAppend] at hdata
  simp only [List.append_assoc, List.cons_append, List.nil_append] at hdata
  have hsplit := splitAtNewline ("Person Enrichment:").data _ st.data _
    (by decide) hst hdata
  have htail := hsplit.2
  simp only [List.cons.injEq, true_and] at htail
  exact headerClash hd.data _ _ (Char.ofNat 123) hhd (by decide) htail.symm
